import Mathlib

/-!
A shallow embedding of the core of drm-hwcomposer (display-pipeline
resource manager for a KMS/DRM device), together with theorems checking
the natural-language specification against it.

The embedding follows the C++ sources:
  - src/drm/DrmPlane.cpp              (plane capability matching)
  - src/compositor/DrmDisplayComposition.cpp (per-frame planning)
  - src/drm/DrmDevice.cpp             (topology discovery, pipe binding)
  - src/drm/DrmConnector.cpp          (connector classification, naming)
  - src/drm/VSyncWorker.cpp           (phase-locked vsync arithmetic)

Machine integers are modelled by Nat/Int (the code never overflows the
64-bit quantities involved); C++ `int` error codes are Int; fallible
calls return a status Int paired with the updated state.  Pointer
identity of resource objects is modelled by structural equality of the
records (each carries the kernel object id, which is unique per device).
-/

namespace DrmHwc

/-! ## Constants (from drm_mode.h / hwcomposer_defs.h / drmhwcomposer.h) -/

/-- DRM_PLANE_TYPE_OVERLAY -/
def DRM_PLANE_TYPE_OVERLAY : Nat := 0

/-- DRM_PLANE_TYPE_PRIMARY -/
def DRM_PLANE_TYPE_PRIMARY : Nat := 1

/-- DRM_PLANE_TYPE_CURSOR -/
def DRM_PLANE_TYPE_CURSOR : Nat := 2

/-- DrmHwcTransform::kIdentity (bitmask value 0) -/
def kIdentity : Nat := 0

/-- DrmHwcTransform::kFlipH (1 << 0) -/
def kFlipH : Nat := 1

/-- DrmHwcTransform::kFlipV (1 << 1) -/
def kFlipV : Nat := 2

/-- DrmHwcTransform::kRotate90 (1 << 2) -/
def kRotate90 : Nat := 4

/-- DrmHwcTransform::kRotate180 (1 << 3) -/
def kRotate180 : Nat := 8

/-- DrmHwcTransform::kRotate270 (1 << 4) -/
def kRotate270 : Nat := 16

/-- DrmHwcBlending::kNone = HWC_BLENDING_NONE (0x0100) -/
def kBlendNone : Nat := 0x0100

/-- DrmHwcBlending::kPreMult = HWC_BLENDING_PREMULT (0x0105) -/
def kBlendPreMult : Nat := 0x0105

/-- DrmHwcBlending::kCoverage = HWC_BLENDING_COVERAGE (0x0405) -/
def kBlendCoverage : Nat := 0x0405

/-! ## Layers and planes -/

/-- The slice of DrmHwcLayer that DrmPlane::IsValidForLayer consults:
transform (a DrmHwcTransform bitmask), alpha (uint16_t), blending
(a DrmHwcBlending value) and buffer_info.format (a fourcc code). -/
structure DrmHwcLayer where
  transform : Nat
  alpha : Nat
  blending : Nat
  format : Nat
deriving DecidableEq, Repr

/-- DrmPlane, as far as capability matching and the plane pools are
concerned (src/drm/DrmPlane.cpp).  `has_rotation_property` is the
truthiness of `rotation_property_`; `transform_enum_keys` are the keys
of `transform_enum_map_` (populated from the hardware enum names at
Init); `alpha_property_id` is `alpha_property_.id()` (0 when the
optional property is absent); `blending_enum_keys` are the keys of
`blending_enum_map_`; `formats_` is the supported-format set reported
by the kernel. -/
structure DrmPlane where
  id_ : Nat
  type_ : Nat
  has_rotation_property : Bool
  transform_enum_keys : List Nat
  alpha_property_id : Nat
  blending_enum_keys : List Nat
  formats_ : List Nat
deriving DecidableEq, Repr

/-- DrmPlane::IsFormatSupported (src/drm/DrmPlane.cpp:183-186). -/
def DrmPlane.IsFormatSupported (p : DrmPlane) (format : Nat) : Bool :=
  p.formats_.contains format

/-- DrmPlane::IsValidForLayer (src/drm/DrmPlane.cpp:144-177), with the
same early-return structure: rotation check, alpha check, blend check,
format check. -/
def DrmPlane.IsValidForLayer (p : DrmPlane) (layer : DrmHwcLayer) : Bool :=
  if !p.has_rotation_property && layer.transform != kIdentity then
    false
  else if p.has_rotation_property
      && !(p.transform_enum_keys.contains layer.transform) then
    false
  else if p.alpha_property_id == 0 && layer.alpha != 0xffff then
    false
  else if !(p.blending_enum_keys.contains layer.blending)
      && layer.blending != kBlendNone && layer.blending != kBlendPreMult then
    false
  else if !(p.IsFormatSupported layer.format) then
    false
  else
    true

/-! ## Display composition (src/compositor/DrmDisplayComposition.cpp) -/

/-- DrmCrtc as seen by planning and pipe binding: kernel id, pipe index,
and the display id it is bound to (-1 when unbound). -/
structure DrmCrtc where
  id_ : Nat
  pipe_ : Nat
  display_ : Int
deriving DecidableEq, Repr

/-- enum DrmCompositionType (EMPTY / FRAME / DPMS / MODESET). -/
inductive DrmCompositionType where
  | kEmpty
  | kFrame
  | kDpms
  | kModeset
deriving DecidableEq, Repr

/-- DrmCompositionPlane::Type (kDisable / kLayer). -/
inductive DrmCompositionPlaneType where
  | kDisable
  | kLayer
deriving DecidableEq, Repr

/-- DrmCompositionPlane: an optional assigned plane plus the indices of
the source layers it presents. -/
structure DrmCompositionPlane where
  kind : DrmCompositionPlaneType
  plane : Option DrmPlane
  source_layers : List Nat
deriving DecidableEq, Repr

/-- DrmMode, reduced to its locally-unique id (Plan and the
composition-type setters never inspect the geometry). -/
structure DrmMode where
  id_ : Nat
deriving DecidableEq, Repr

/-- DRM_MODE_DPMS_ON -/
def DRM_MODE_DPMS_ON : Nat := 0

/-- DrmDisplayComposition state: type tag, layers, composition planes,
dpms mode, display mode, geometry flag, and the crtc reference. -/
structure DrmDisplayComposition where
  type_ : DrmCompositionType
  layers_ : List DrmHwcLayer
  composition_planes_ : List DrmCompositionPlane
  dpms_mode_ : Nat
  display_mode_ : DrmMode
  geometry_changed_ : Bool
  crtc_ : Option DrmCrtc
deriving DecidableEq, Repr

/-- DrmDisplayComposition::validate_composition_type
(src/compositor/DrmDisplayComposition.cpp:40-42). -/
def validate_composition_type (type_ : DrmCompositionType)
    (des : DrmCompositionType) : Bool :=
  type_ == DrmCompositionType.kEmpty || type_ == des

/-- DrmDisplayComposition::SetLayers
(src/compositor/DrmDisplayComposition.cpp:44-57): guard the type, set
the geometry flag, append the layers, set the type tag. -/
def SetLayers (c : DrmDisplayComposition) (layers : List DrmHwcLayer)
    (geometry_changed : Bool) : Int × DrmDisplayComposition :=
  if !validate_composition_type c.type_ DrmCompositionType.kFrame then
    (-22, c)
  else
    (0, { c with
            geometry_changed_ := geometry_changed,
            layers_ := c.layers_ ++ layers,
            type_ := DrmCompositionType.kFrame })

/-- DrmDisplayComposition::SetDpmsMode
(src/compositor/DrmDisplayComposition.cpp:59-65). -/
def SetDpmsMode (c : DrmDisplayComposition) (dpms_mode : Nat) :
    Int × DrmDisplayComposition :=
  if !validate_composition_type c.type_ DrmCompositionType.kDpms then
    (-22, c)
  else
    (0, { c with
            dpms_mode_ := dpms_mode,
            type_ := DrmCompositionType.kDpms })

/-- DrmDisplayComposition::SetDisplayMode
(src/compositor/DrmDisplayComposition.cpp:67-76): also forces the dpms
mode to DRM_MODE_DPMS_ON. -/
def SetDisplayMode (c : DrmDisplayComposition) (display_mode : DrmMode) :
    Int × DrmDisplayComposition :=
  if !validate_composition_type c.type_ DrmCompositionType.kModeset then
    (-22, c)
  else
    (0, { c with
            display_mode_ := display_mode,
            dpms_mode_ := DRM_MODE_DPMS_ON,
            type_ := DrmCompositionType.kModeset })

/-- DrmDisplayComposition::AddPlaneDisable
(src/compositor/DrmDisplayComposition.cpp:78-81). -/
def AddPlaneDisable (c : DrmDisplayComposition) (plane : DrmPlane) :
    Int × DrmDisplayComposition :=
  (0, { c with
          composition_planes_ := c.composition_planes_ ++
            [⟨DrmCompositionPlaneType.kDisable, some plane, []⟩] })

/-- The external Planner strategy (Planner::ProvisionPlanes): receives
the index→layer map, the crtc, and the two plane pools by mutable
reference; returns a status, the composition planes, and the pools as
it left them. -/
def Planner : Type :=
  List (Nat × DrmHwcLayer) → Option DrmCrtc → List DrmPlane →
    List DrmPlane →
    Int × List DrmCompositionPlane × List DrmPlane × List DrmPlane

/-- The post-planner loop of DrmDisplayComposition::Plan
(src/compositor/DrmDisplayComposition.cpp:110-128): for every
composition plane that references a real plane, sort its source layers
ascending and erase the first occurrence of that plane from the pool
selected by the plane's type (primary pool for primary planes, overlay
pool for everything else). -/
def removeUsedPlanes :
    List DrmCompositionPlane → List DrmPlane → List DrmPlane →
      List DrmCompositionPlane × List DrmPlane × List DrmPlane
  | [], primary_planes, overlay_planes =>
      ([], primary_planes, overlay_planes)
  | cp :: rest, primary_planes, overlay_planes =>
      match cp.plane with
      | none =>
          let r := removeUsedPlanes rest primary_planes overlay_planes
          (cp :: r.1, r.2)
      | some pl =>
          let cp' := { cp with
                         source_layers :=
                           cp.source_layers.insertionSort (· ≤ ·) }
          let pools :=
            if pl.type_ == DRM_PLANE_TYPE_PRIMARY then
              (primary_planes.erase pl, overlay_planes)
            else
              (primary_planes, overlay_planes.erase pl)
          let r := removeUsedPlanes rest pools.1 pools.2
          (cp' :: r.1, r.2)

/-- DrmDisplayComposition::Plan
(src/compositor/DrmDisplayComposition.cpp:88-131).  Non-frame
compositions return 0 untouched; otherwise the planner is invoked on
the enumerated layer map and, on success, the used planes are removed
from the pools.  Note that `composition_planes_` is assigned from the
planner's result even on the failure path (std::tie). -/
def Plan (planner : Planner) (c : DrmDisplayComposition)
    (primary_planes overlay_planes : List DrmPlane) :
    Int × DrmDisplayComposition × List DrmPlane × List DrmPlane :=
  if c.type_ ≠ DrmCompositionType.kFrame then
    (0, c, primary_planes, overlay_planes)
  else
    let r := planner c.layers_.enum c.crtc_ primary_planes overlay_planes
    if r.1 ≠ 0 then
      (r.1, { c with composition_planes_ := r.2.1 }, r.2.2)
    else
      let rem := removeUsedPlanes r.2.1 r.2.2.1 r.2.2.2
      (0, { c with composition_planes_ := rem.1 }, rem.2)

/-- The real planes referenced by a list of composition planes. -/
def refPlanes (cps : List DrmCompositionPlane) : List DrmPlane :=
  cps.filterMap (·.plane)

/-! ## Device topology (src/drm/DrmDevice.cpp, src/drm/DrmConnector.cpp) -/

/-- DRM_MODE_CONNECTOR_VGA -/
def DRM_MODE_CONNECTOR_VGA : Nat := 1

/-- DRM_MODE_CONNECTOR_DVII -/
def DRM_MODE_CONNECTOR_DVII : Nat := 2

/-- DRM_MODE_CONNECTOR_DVID -/
def DRM_MODE_CONNECTOR_DVID : Nat := 3

/-- DRM_MODE_CONNECTOR_LVDS -/
def DRM_MODE_CONNECTOR_LVDS : Nat := 7

/-- DRM_MODE_CONNECTOR_DisplayPort -/
def DRM_MODE_CONNECTOR_DisplayPort : Nat := 10

/-- DRM_MODE_CONNECTOR_HDMIA -/
def DRM_MODE_CONNECTOR_HDMIA : Nat := 11

/-- DRM_MODE_CONNECTOR_eDP -/
def DRM_MODE_CONNECTOR_eDP : Nat := 14

/-- DRM_MODE_CONNECTOR_VIRTUAL -/
def DRM_MODE_CONNECTOR_VIRTUAL : Nat := 15

/-- DRM_MODE_CONNECTOR_DSI -/
def DRM_MODE_CONNECTOR_DSI : Nat := 16

/-- DRM_MODE_CONNECTOR_DPI -/
def DRM_MODE_CONNECTOR_DPI : Nat := 17

/-- DRM_MODE_CONNECTOR_WRITEBACK -/
def DRM_MODE_CONNECTOR_WRITEBACK : Nat := 18

/-- drmModeConnection: DRM_MODE_CONNECTED -/
def DRM_MODE_CONNECTED : Nat := 1

/-- drmModeConnection: DRM_MODE_DISCONNECTED -/
def DRM_MODE_DISCONNECTED : Nat := 2

/-- DrmConnector state relevant to discovery and display assignment
(src/drm/DrmConnector.cpp): kernel id, connector type and type
instance, connection state, assigned display (-1 while unassigned),
current encoder reference (by encoder id) and the possible-encoder
list. -/
structure DrmConnector where
  id_ : Nat
  type_ : Nat
  type_id_ : Nat
  state_ : Nat
  display_ : Int
  encoder_ : Option Nat
  possible_encoders_ : List Nat
deriving DecidableEq, Repr

/-- DrmConnector::internal (src/drm/DrmConnector.cpp:120-124). -/
def DrmConnector.internal (conn : DrmConnector) : Bool :=
  conn.type_ == DRM_MODE_CONNECTOR_LVDS ||
  conn.type_ == DRM_MODE_CONNECTOR_eDP ||
  conn.type_ == DRM_MODE_CONNECTOR_DSI ||
  conn.type_ == DRM_MODE_CONNECTOR_VIRTUAL ||
  conn.type_ == DRM_MODE_CONNECTOR_DPI

/-- DrmConnector::external (src/drm/DrmConnector.cpp:126-131). -/
def DrmConnector.external (conn : DrmConnector) : Bool :=
  conn.type_ == DRM_MODE_CONNECTOR_HDMIA ||
  conn.type_ == DRM_MODE_CONNECTOR_DisplayPort ||
  conn.type_ == DRM_MODE_CONNECTOR_DVID ||
  conn.type_ == DRM_MODE_CONNECTOR_DVII ||
  conn.type_ == DRM_MODE_CONNECTOR_VGA

/-- DrmConnector::writeback (src/drm/DrmConnector.cpp:133-139). -/
def DrmConnector.writeback (conn : DrmConnector) : Bool :=
  conn.type_ == DRM_MODE_CONNECTOR_WRITEBACK

/-- The connector-type name table (src/drm/DrmConnector.cpp:146-149). -/
def kNames : List String :=
  ["None", "VGA", "DVI-I", "DVI-D", "DVI-A", "Composite",
   "SVIDEO", "LVDS", "Component", "DIN", "DP", "HDMI-A",
   "HDMI-B", "TV", "eDP", "Virtual", "DSI"]

/-- kTypesCount (src/drm/DrmConnector.cpp:33). -/
def kTypesCount : Nat := 17

/-- The name used for out-of-range connector types. -/
def kNameNone : String := "None"

/-- The wildcard sentinel of the primary-display-order property. -/
def kWildcard : String := "..."

/-- Default for getLastD; the parsed property list is never empty
because the property itself defaults to the wildcard sentinel. -/
def kEmptyName : String := ""

/-- DrmConnector::name (src/drm/DrmConnector.cpp:145-159):
`kNames[type_] ++ "-" ++ type_id_` for known types, "None" otherwise. -/
def DrmConnector.name (conn : DrmConnector) : String :=
  if conn.type_ < kTypesCount then
    kNames.getD conn.type_ kNameNone ++ "-" ++ toString conn.type_id_
  else
    kNameNone

/-- std::iter_swap of two positions of a list (no-op if either index is
out of range, where the C++ iterators could not arise). -/
def listSwap {α : Type} (l : List α) (i j : Nat) : List α :=
  match l.get? i, l.get? j with
  | some a, some b => (l.set i b).set j a
  | _, _ => l

/-- The reordering loop of make_primary_display_candidates
(src/drm/DrmDevice.cpp:90-101): for each preferred name in order, find
a connector with that name among the candidates and swap it into the
next front slot. -/
def primaryOrderPass (primary_candidates : List DrmConnector)
    (display_order : List String) : List DrmConnector × Nat :=
  display_order.foldl
    (fun st display_name =>
      match st.1.findIdx? (fun conn => conn.name == display_name) with
      | some i => (listSwap st.1 i st.2, st.2 + 1)
      | none => st)
    (primary_candidates, 0)

/-- make_primary_display_candidates (src/drm/DrmDevice.cpp:70-112):
keep connected connectors, move preference-list matches to the front
(in list order); with a wildcard last entry append internal connectors
then the rest (std::partition, modelled stably), otherwise drop
everything after the preference matches. -/
def make_primary_display_candidates (connectors : List DrmConnector)
    (display_order : List String) : List DrmConnector :=
  let primary_candidates := connectors.filter
    (fun conn => conn.state_ == DRM_MODE_CONNECTED)
  let use_other := display_order.getLastD kEmptyName == kWildcard
  let st := primaryOrderPass primary_candidates display_order
  if use_other then
    st.1.take st.2 ++ (st.1.drop st.2).filter (·.internal) ++
      (st.1.drop st.2).filter (fun conn => !conn.internal)
  else
    st.1.take st.2

/-- conn->set_display on the (unique) connector with the given id
(pointer update into the device's connector list). -/
def setDisplayFirst (connectors : List DrmConnector) (cid : Nat)
    (display : Int) : List DrmConnector :=
  match connectors with
  | [] => []
  | conn :: rest =>
      if conn.id_ == cid then { conn with display_ := display } :: rest
      else conn :: setDisplayFirst rest cid display

/-- The fallback display-assignment loop of DrmDevice::Init
(src/drm/DrmDevice.cpp:283-296): every connector that is external or
internal receives the next display number — the first as primary when
none was found yet, the others whenever still unassigned.  The state is
(connector list, displays_ keys, num_displays, found_primary). -/
def assignDisplaysLoop :
    List DrmConnector → List Int → Int → Bool →
      List DrmConnector × List Int × Int × Bool
  | [], displays_, num_displays, found_primary =>
      ([], displays_, num_displays, found_primary)
  | conn :: rest, displays_, num_displays, found_primary =>
      if conn.external || conn.internal then
        if !found_primary then
          let r := assignDisplaysLoop rest (displays_ ++ [num_displays])
            (num_displays + 1) true
          ({ conn with display_ := num_displays } :: r.1, r.2)
        else if conn.display_ < 0 then
          let r := assignDisplaysLoop rest (displays_ ++ [num_displays])
            (num_displays + 1) found_primary
          ({ conn with display_ := num_displays } :: r.1, r.2)
        else
          let r := assignDisplaysLoop rest displays_ num_displays
            found_primary
          (conn :: r.1, r.2)
      else
        let r := assignDisplaysLoop rest displays_ num_displays
          found_primary
        (conn :: r.1, r.2)

/-- The display-assignment pass of DrmDevice::Init
(src/drm/DrmDevice.cpp:263-296): primary-candidate selection followed
by the fallback loop.  Returns the updated connector list and the keys
added to displays_. -/
def initAssignDisplays (connectors : List DrmConnector)
    (display_order : List String) (num_displays : Int) :
    List DrmConnector × List Int :=
  let found_primary : Bool := num_displays != 0
  let primary_candidates :=
    make_primary_display_candidates connectors display_order
  match primary_candidates.head? with
  | some conn =>
      if !found_primary then
        let r := assignDisplaysLoop
          (setDisplayFirst connectors conn.id_ num_displays)
          [num_displays] (num_displays + 1) true
        (r.1, r.2.1)
      else
        let r := assignDisplaysLoop connectors [] num_displays
          found_primary
        (r.1, r.2.1)
  | none =>
      let r := assignDisplaysLoop connectors [] num_displays found_primary
      (r.1, r.2.1)

/-! ## Encoder/CRTC binding (src/drm/DrmDevice.cpp:417-501) -/

/-- Modelled from the spec: DrmCrtc::can_bind (DrmCrtc.cpp is not among
the given sources).  Per §4.1.5 a CRTC candidate is usable when it is
unbound (-1) or already bound to this same display. -/
def DrmCrtc.can_bind (crtc : DrmCrtc) (display : Int) : Bool :=
  crtc.display_ == -1 || crtc.display_ == display

/-- DrmEncoder as used by pipe binding: kernel id, current CRTC
reference (by id), possible-CRTC list, and the display it serves
(-1 while unbound); the possible-clone relation is not needed here. -/
structure DrmEncoder where
  id_ : Nat
  crtc_ : Option Nat
  possible_crtcs_ : List Nat
  display_ : Int
deriving DecidableEq, Repr

/-- Modelled from the spec: DrmEncoder::can_bind (DrmEncoder.cpp is not
among the given sources).  An encoder may be claimed only when unbound
or already serving this same display ("use just encoders which had not
been bound already"). -/
def DrmEncoder.can_bind (enc : DrmEncoder) (display : Int) : Bool :=
  enc.display_ == -1 || enc.display_ == display

/-- Modelled from the spec: DrmEncoder::set_crtc binds the encoder to a
CRTC (a 1:1 relation at any instant), recording the display that CRTC
drives. -/
def DrmEncoder.set_crtc (enc : DrmEncoder) (crtc : DrmCrtc) : DrmEncoder :=
  { enc with crtc_ := some crtc.id_, display_ := crtc.display_ }

/-- Resolve a CRTC pointer (id) against the device's CRTC list. -/
def findCrtcById (crtcs : List DrmCrtc) (cid : Nat) : Option DrmCrtc :=
  crtcs.find? (fun crtc => crtc.id_ == cid)

/-- crtc->set_display(display) applied through the device's CRTC list
(CRTC ids are unique per device, so this updates one object). -/
def setCrtcDisplay (crtcs : List DrmCrtc) (cid : Nat) (display : Int) :
    List DrmCrtc :=
  crtcs.map (fun crtc =>
    if crtc.id_ == cid then { crtc with display_ := display } else crtc)

/-- The fast path of TryEncoderForDisplay
(src/drm/DrmDevice.cpp:418-424): the encoder's currently referenced
CRTC, provided it exists and can bind the display. -/
def tryCurrentCrtc (crtcs : List DrmCrtc) (enc : DrmEncoder)
    (display : Int) : Option DrmCrtc :=
  match enc.crtc_ with
  | some cid =>
      match findCrtcById crtcs cid with
      | some crtc => if crtc.can_bind display then some crtc else none
      | none => none
  | none => none

/-- The candidate scan of TryEncoderForDisplay
(src/drm/DrmDevice.cpp:426-437): the first CRTC of the encoder's
possible list — skipping the already-tried current one — that can bind
the display.  (Ids missing from the device list cannot arise and are
skipped.) -/
def findBindableCrtc (crtcs : List DrmCrtc) (enc : DrmEncoder)
    (display : Int) : List Nat → Option DrmCrtc
  | [] => none
  | cid :: rest =>
      if enc.crtc_ == some cid then
        findBindableCrtc crtcs enc display rest
      else
        match findCrtcById crtcs cid with
        | some crtc =>
            if crtc.can_bind display then some crtc
            else findBindableCrtc crtcs enc display rest
        | none => findBindableCrtc crtcs enc display rest

/-- DrmDevice::TryEncoderForDisplay (src/drm/DrmDevice.cpp:417-441):
bind the current CRTC if possible, else the first bindable possible
CRTC, else report -EAGAIN (retry-able) leaving everything untouched. -/
def TryEncoderForDisplay (display : Int) (enc : DrmEncoder)
    (crtcs : List DrmCrtc) : Int × DrmEncoder × List DrmCrtc :=
  match tryCurrentCrtc crtcs enc display with
  | some crtc =>
      (0, enc.set_crtc { crtc with display_ := display },
       setCrtcDisplay crtcs crtc.id_ display)
  | none =>
      match findBindableCrtc crtcs enc display enc.possible_crtcs_ with
      | some crtc =>
          (0, enc.set_crtc { crtc with display_ := display },
           setCrtcDisplay crtcs crtc.id_ display)
      | none => (-11, enc, crtcs)

/-- Resolve an encoder pointer (id) against the device's encoder list. -/
def findEncoderById (encoders : List DrmEncoder) (eid : Nat) :
    Option DrmEncoder :=
  encoders.find? (fun enc => enc.id_ == eid)

/-- DrmDevice::GetWritebackConnectorForDisplay
(src/drm/DrmDevice.cpp:360-366): first writeback connector assigned to
the display. -/
def GetWritebackConnectorForDisplay
    (writeback_connectors : List DrmConnector) (display : Int) :
    Option DrmConnector :=
  writeback_connectors.find? (fun conn => conn.display_ == display)

/-- The encoder search inside AttachWriteback
(src/drm/DrmDevice.cpp:485-497): the first possible encoder of a
writeback connector whose possible-CRTC list contains the display's
CRTC and which is not already bound to another display. -/
def findWritebackEncoder (encoders : List DrmEncoder)
    (display_crtc : DrmCrtc) : List Nat → Option DrmEncoder
  | [] => none
  | eid :: rest =>
      match findEncoderById encoders eid with
      | some enc =>
          if enc.possible_crtcs_.contains display_crtc.id_ &&
              enc.can_bind display_crtc.display_ then
            some enc
          else findWritebackEncoder encoders display_crtc rest
      | none => findWritebackEncoder encoders display_crtc rest

/-- writeback_enc->set_crtc(display_crtc) applied through the device's
encoder list (encoder ids are unique per device). -/
def setEncoderBound (encoders : List DrmEncoder) (eid : Nat)
    (display_crtc : DrmCrtc) : List DrmEncoder :=
  encoders.map (fun enc =>
    if enc.id_ == eid then enc.set_crtc display_crtc else enc)

/-- The connector loop of AttachWriteback
(src/drm/DrmDevice.cpp:482-499): skip connectors already assigned a
display; bind the first unassigned writeback connector that has a
suitable encoder.  Returns none when no connector can be bound. -/
def attachWritebackLoop (encoders : List DrmEncoder)
    (display_crtc : DrmCrtc) :
    List DrmConnector → Option (List DrmConnector × List DrmEncoder)
  | [] => none
  | conn :: rest =>
      if conn.display_ ≥ 0 then
        match attachWritebackLoop encoders display_crtc rest with
        | some r => some (conn :: r.1, r.2)
        | none => none
      else
        match findWritebackEncoder encoders display_crtc
            conn.possible_encoders_ with
        | some enc =>
            let conn' := { conn with
                             encoder_ := some enc.id_,
                             display_ := display_crtc.display_ }
            some (conn' :: rest,
                  setEncoderBound encoders enc.id_ display_crtc)
        | none =>
            match attachWritebackLoop encoders display_crtc rest with
            | some r => some (conn :: r.1, r.2)
            | none => none

/-- DrmDevice::AttachWriteback (src/drm/DrmDevice.cpp:476-501), acting
on the CRTC bound to display_conn's encoder: reject when the display
already has a writeback connector, otherwise bind the first suitable
unassigned writeback connector.  The trailing UpdateModes call (kernel
I/O refreshing the connector's mode list) is outside the model. -/
def AttachWriteback (display_crtc : DrmCrtc)
    (writeback_connectors : List DrmConnector)
    (encoders : List DrmEncoder) :
    Int × List DrmConnector × List DrmEncoder :=
  if (GetWritebackConnectorForDisplay writeback_connectors
      display_crtc.display_).isSome then
    (-22, writeback_connectors, encoders)
  else
    match attachWritebackLoop encoders display_crtc
        writeback_connectors with
    | some r => (0, r.1, r.2)
    | none => (-22, writeback_connectors, encoders)

/-- The §4.1.6 invariant: every display (id ≥ 0) has at most one
writeback connector attached. -/
def AtMostOneWriteback (writeback_connectors : List DrmConnector) : Prop :=
  ∀ d : Int, 0 ≤ d →
    (writeback_connectors.filter (fun conn => conn.display_ == d)).length ≤ 1

/-! ## Phase-locked vsync arithmetic (src/drm/VSyncWorker.cpp) -/

/-- kOneSecondNs (src/drm/VSyncWorker.cpp:80). -/
def kOneSecondNs : Int := 1 * 1000 * 1000 * 1000

/-- VSyncWorker::GetPhasedVSync (src/drm/VSyncWorker.cpp:72-78), with
the member `last_timestamp_` passed explicitly.  C++ int64_t division
truncates toward zero, i.e. Int.tdiv. -/
def GetPhasedVSync (last_timestamp_ frame_ns current : Int) : Int :=
  if last_timestamp_ < 0 then current + frame_ns
  else
    frame_ns * ((current - last_timestamp_).tdiv frame_ns + 1) +
      last_timestamp_

/-! ### Concrete sample data used by the witnesses -/

/-- An identity-transform, opaque, blend-none layer of format 1. -/
def wLayerA : DrmHwcLayer :=
  { transform := kIdentity, alpha := 0xffff, blending := kBlendNone,
    format := 1 }

/-- A primary plane sample. -/
def wPlanePrim : DrmPlane :=
  { id_ := 10, type_ := DRM_PLANE_TYPE_PRIMARY,
    has_rotation_property := false, transform_enum_keys := [],
    alpha_property_id := 0, blending_enum_keys := [], formats_ := [1] }

/-- An overlay plane sample. -/
def wPlaneOv : DrmPlane :=
  { id_ := 20, type_ := DRM_PLANE_TYPE_OVERLAY,
    has_rotation_property := false, transform_enum_keys := [],
    alpha_property_id := 0, blending_enum_keys := [], formats_ := [1] }

/-- A fresh (empty) composition holding one layer candidate. -/
def wCompEmpty : DrmDisplayComposition :=
  { type_ := DrmCompositionType.kEmpty, layers_ := [wLayerA],
    composition_planes_ := [], dpms_mode_ := 0, display_mode_ := ⟨0⟩,
    geometry_changed_ := false, crtc_ := none }

/-- A frame-kind composition. -/
def wCompFrame : DrmDisplayComposition :=
  { wCompEmpty with type_ := DrmCompositionType.kFrame }

/-- A DPMS-kind composition. -/
def wCompDpms : DrmDisplayComposition :=
  { wCompEmpty with type_ := DrmCompositionType.kDpms }

/-- A planner result claiming both sample planes, with an unsorted
source-layer list on the first. -/
def wCpsC1 : List DrmCompositionPlane :=
  [⟨DrmCompositionPlaneType.kLayer, some wPlanePrim, [1, 0]⟩,
   ⟨DrmCompositionPlaneType.kLayer, some wPlaneOv, [2]⟩]

/-- A successful planner strategy returning `wCpsC1` and leaving the
pools untouched. -/
def wPlannerOk : Planner := fun _ _ p o => (0, wCpsC1, p, o)

/-- A failing planner strategy (status -ENOMEM). -/
def wPlannerFail : Planner := fun _ _ p o => (-12, [], p, o)

/-- A disconnected HDMI-A-1 connector (external). -/
def wConnHdmiDisc : DrmConnector :=
  { id_ := 1, type_ := DRM_MODE_CONNECTOR_HDMIA, type_id_ := 1,
    state_ := DRM_MODE_DISCONNECTED, display_ := -1, encoder_ := none,
    possible_encoders_ := [] }

/-- A connected eDP-1 connector (internal). -/
def wConnEdpConn : DrmConnector :=
  { id_ := 2, type_ := DRM_MODE_CONNECTOR_eDP, type_id_ := 1,
    state_ := DRM_MODE_CONNECTED, display_ := -1, encoder_ := none,
    possible_encoders_ := [] }

/-- An unbound CRTC with kernel id 100. -/
def wCrtc100 : DrmCrtc := { id_ := 100, pipe_ := 0, display_ := -1 }

/-- The CRTC with id 100 once bound to display 0. -/
def wCrtc100Bound : DrmCrtc := { id_ := 100, pipe_ := 0, display_ := 0 }

/-- An unbound encoder whose possible-CRTC list holds CRTC 100. -/
def wEnc5 : DrmEncoder :=
  { id_ := 5, crtc_ := none, possible_crtcs_ := [100], display_ := -1 }

/-- An unassigned writeback connector that can reach encoder 5. -/
def wWbConn : DrmConnector :=
  { id_ := 7, type_ := DRM_MODE_CONNECTOR_WRITEBACK, type_id_ := 1,
    state_ := DRM_MODE_CONNECTED, display_ := -1, encoder_ := none,
    possible_encoders_ := [5] }

end DrmHwc

namespace DrmHwc

/-- C3: DrmPlane::IsValidForLayer returns true iff: no rotation property
implies identity transform; a rotation property implies the transform is
a key of the transform enum map; no alpha property implies fully-opaque
alpha (0xffff); the blend mode is a key of the blend enum map or is one
of the two universally supported modes (none, pre-multiplied); and the
pixel format is in the plane's supported-format set. -/
theorem DrmPlane.IsValidForLayer_iff (p : DrmPlane) (layer : DrmHwcLayer) :
    p.IsValidForLayer layer = true ↔
      ((p.has_rotation_property = false → layer.transform = kIdentity) ∧
       (p.has_rotation_property = true →
          layer.transform ∈ p.transform_enum_keys) ∧
       (p.alpha_property_id = 0 → layer.alpha = 0xffff) ∧
       (layer.blending ∈ p.blending_enum_keys ∨ layer.blending = kBlendNone ∨
          layer.blending = kBlendPreMult) ∧
       layer.format ∈ p.formats_) := by
  unfold DrmPlane.IsValidForLayer DrmPlane.IsFormatSupported
  cases h : p.has_rotation_property <;> simp <;> tauto

/-- C9: the three composition-kind setters are mutually exclusive: each
succeeds iff the current kind is empty or already the kind being set,
and on mismatch returns -EINVAL leaving the whole composition (kind and
payload) unchanged. -/
theorem composition_setters_exclusive (c : DrmDisplayComposition)
    (layers : List DrmHwcLayer) (g : Bool) (dpms : Nat) (m : DrmMode) :
    ((SetLayers c layers g).1 = 0 ↔
        (c.type_ = DrmCompositionType.kEmpty ∨
         c.type_ = DrmCompositionType.kFrame)) ∧
    (¬(c.type_ = DrmCompositionType.kEmpty ∨
         c.type_ = DrmCompositionType.kFrame) →
       SetLayers c layers g = (-22, c)) ∧
    ((SetDpmsMode c dpms).1 = 0 ↔
        (c.type_ = DrmCompositionType.kEmpty ∨
         c.type_ = DrmCompositionType.kDpms)) ∧
    (¬(c.type_ = DrmCompositionType.kEmpty ∨
         c.type_ = DrmCompositionType.kDpms) →
       SetDpmsMode c dpms = (-22, c)) ∧
    ((SetDisplayMode c m).1 = 0 ↔
        (c.type_ = DrmCompositionType.kEmpty ∨
         c.type_ = DrmCompositionType.kModeset)) ∧
    (¬(c.type_ = DrmCompositionType.kEmpty ∨
         c.type_ = DrmCompositionType.kModeset) →
       SetDisplayMode c m = (-22, c)) := by
  unfold SetLayers SetDpmsMode SetDisplayMode validate_composition_type
  cases c.type_ <;> simp

/-- C9 witness: on a DPMS-kind composition, SetLayers fails with -EINVAL
and changes nothing, while SetDpmsMode succeeds. -/
theorem composition_setters_exclusive_witness :
    SetLayers wCompDpms [wLayerA] true = (-22, wCompDpms) ∧
    (SetDpmsMode wCompDpms 3).1 = 0 := by
  have h := composition_setters_exclusive wCompDpms [wLayerA] true 3 ⟨7⟩
  exact ⟨h.2.1 (by decide), h.2.2.1.mpr (by decide)⟩

/-- C10: a non-frame composition (empty, DPMS, or modeset) makes Plan
return 0 without invoking the Planner (the result is the same for every
planner) and without touching the composition or the plane pools. -/
theorem Plan_nonframe (c : DrmDisplayComposition)
    (primary_planes overlay_planes : List DrmPlane)
    (h : c.type_ ≠ DrmCompositionType.kFrame) :
    ∀ planner : Planner,
      Plan planner c primary_planes overlay_planes =
        (0, c, primary_planes, overlay_planes) := by
  intro planner
  unfold Plan
  simp [h]

/-- C10 witness: Plan on a DPMS-kind composition returns success and
leaves everything unchanged, even under a failing planner. -/
theorem Plan_nonframe_witness :
    Plan wPlannerFail wCompDpms [wPlanePrim] [wPlaneOv] =
      (0, wCompDpms, [wPlanePrim], [wPlaneOv]) :=
  Plan_nonframe wCompDpms [wPlanePrim] [wPlaneOv] (by decide) wPlannerFail

/-- C2: when the planner strategy fails (non-zero status), Plan returns
that same status and hands back exactly the pools the planner produced —
Plan itself removes nothing from either pool on the failure path. -/
theorem Plan_planner_failure (planner : Planner)
    (c : DrmDisplayComposition) (prim ov : List DrmPlane) (r : Int)
    (cps : List DrmCompositionPlane) (p1 o1 : List DrmPlane)
    (hframe : c.type_ = DrmCompositionType.kFrame)
    (hplan : planner c.layers_.enum c.crtc_ prim ov = (r, cps, p1, o1))
    (hr : r ≠ 0) :
    Plan planner c prim ov =
      (r, { c with composition_planes_ := cps }, p1, o1) := by
  unfold Plan
  simp [hframe, hplan, hr]

/-- C2 witness: a planner failing with -ENOMEM propagates through Plan
with the pools untouched. -/
theorem Plan_planner_failure_witness :
    Plan wPlannerFail wCompFrame [wPlanePrim] [wPlaneOv] =
      (-12, { wCompFrame with composition_planes_ := [] },
       [wPlanePrim], [wPlaneOv]) :=
  Plan_planner_failure wPlannerFail wCompFrame [wPlanePrim] [wPlaneOv]
    (-12) [] [wPlanePrim] [wPlaneOv] rfl rfl (by decide)

/-! ### Helper lemmas on the plane-removal loop -/

theorem removeUsedPlanes_subsets (cps : List DrmCompositionPlane) :
    ∀ prim ov : List DrmPlane,
      (removeUsedPlanes cps prim ov).2.1 ⊆ prim ∧
      (removeUsedPlanes cps prim ov).2.2 ⊆ ov := by
  induction cps with
  | nil => intro prim ov; simp [removeUsedPlanes]
  | cons cp rest ih =>
    intro prim ov
    cases hp : cp.plane with
    | none =>
      simpa [removeUsedPlanes, hp] using ih prim ov
    | some pl =>
      by_cases ht : pl.type_ == DRM_PLANE_TYPE_PRIMARY
      · refine ⟨?_, ?_⟩
        · simpa [removeUsedPlanes, hp, ht] using
            ((ih (prim.erase pl) ov).1.trans (List.erase_subset pl prim))
        · simpa [removeUsedPlanes, hp, ht] using (ih (prim.erase pl) ov).2
      · refine ⟨?_, ?_⟩
        · simpa [removeUsedPlanes, hp, ht] using (ih prim (ov.erase pl)).1
        · simpa [removeUsedPlanes, hp, ht] using
            ((ih prim (ov.erase pl)).2.trans (List.erase_subset pl ov))

theorem removeUsedPlanes_sorted (cps : List DrmCompositionPlane) :
    ∀ prim ov : List DrmPlane,
      ∀ cp ∈ (removeUsedPlanes cps prim ov).1,
        cp.plane.isSome → cp.source_layers.Sorted (· ≤ ·) := by
  induction cps with
  | nil => intro prim ov; simp [removeUsedPlanes]
  | cons cp rest ih =>
    intro prim ov cp' hmem hsome
    cases hp : cp.plane with
    | none =>
      rw [removeUsedPlanes, hp] at hmem
      simp only [List.mem_cons] at hmem
      cases hmem with
      | inl h => rw [h] at hsome; rw [hp] at hsome; simp at hsome
      | inr h => exact ih _ _ cp' h hsome
    | some pl =>
      rw [removeUsedPlanes, hp] at hmem
      simp only [List.mem_cons] at hmem
      cases hmem with
      | inl h =>
        rw [h]
        exact List.sorted_insertionSort (· ≤ ·) cp.source_layers
      | inr h => exact ih _ _ cp' h hsome

theorem removeUsedPlanes_pools (cps : List DrmCompositionPlane) :
    ∀ prim ov : List DrmPlane,
      (refPlanes cps).Nodup → prim.Nodup → ov.Nodup →
      (∀ pl ∈ refPlanes cps,
          (pl.type_ = DRM_PLANE_TYPE_PRIMARY → pl ∈ prim) ∧
          (pl.type_ ≠ DRM_PLANE_TYPE_PRIMARY → pl ∈ ov)) →
      ((removeUsedPlanes cps prim ov).2.1.length +
          ((refPlanes cps).filter
            (fun pl => pl.type_ == DRM_PLANE_TYPE_PRIMARY)).length =
        prim.length ∧
       (removeUsedPlanes cps prim ov).2.2.length +
          ((refPlanes cps).filter
            (fun pl => !(pl.type_ == DRM_PLANE_TYPE_PRIMARY))).length =
        ov.length ∧
       (∀ pl ∈ refPlanes cps,
          (pl.type_ = DRM_PLANE_TYPE_PRIMARY →
             pl ∉ (removeUsedPlanes cps prim ov).2.1) ∧
          (pl.type_ ≠ DRM_PLANE_TYPE_PRIMARY →
             pl ∉ (removeUsedPlanes cps prim ov).2.2))) := by
  induction cps with
  | nil => intro prim ov _ _ _ _; simp [removeUsedPlanes, refPlanes]
  | cons cp rest ih =>
    intro prim ov hrefs hprim hov hmem
    cases hp : cp.plane with
    | none =>
      have hr : refPlanes (cp :: rest) = refPlanes rest := by
        simp [refPlanes, hp]
      have hred1 : (removeUsedPlanes (cp :: rest) prim ov).2.1 =
          (removeUsedPlanes rest prim ov).2.1 := by
        simp [removeUsedPlanes, hp]
      have hred2 : (removeUsedPlanes (cp :: rest) prim ov).2.2 =
          (removeUsedPlanes rest prim ov).2.2 := by
        simp [removeUsedPlanes, hp]
      rw [hr] at hmem hrefs ⊢
      rw [hred1, hred2]
      exact ih prim ov hrefs hprim hov hmem
    | some pl =>
      have hr : refPlanes (cp :: rest) = pl :: refPlanes rest := by
        simp [refPlanes, hp]
      rw [hr] at hmem hrefs ⊢
      rw [List.nodup_cons] at hrefs
      have hplmem := hmem pl (List.mem_cons_self pl _)
      have hrest_ne : ∀ pl' ∈ refPlanes rest, pl' ≠ pl := by
        intro pl' h' heq
        exact hrefs.1 (heq ▸ h')
      by_cases ht : pl.type_ = DRM_PLANE_TYPE_PRIMARY
      · have htb : (pl.type_ == DRM_PLANE_TYPE_PRIMARY) = true := by
          simp [ht]
        have hred1 : (removeUsedPlanes (cp :: rest) prim ov).2.1 =
            (removeUsedPlanes rest (prim.erase pl) ov).2.1 := by
          simp [removeUsedPlanes, hp, htb]
        have hred2 : (removeUsedPlanes (cp :: rest) prim ov).2.2 =
            (removeUsedPlanes rest (prim.erase pl) ov).2.2 := by
          simp [removeUsedPlanes, hp, htb]
        have hin : pl ∈ prim := hplmem.1 ht
        have hlen : (prim.erase pl).length = prim.length - 1 :=
          List.length_erase_of_mem hin
        have hpos : 1 ≤ prim.length :=
          List.length_pos.mpr (List.ne_nil_of_mem hin)
        have hmem' : ∀ pl' ∈ refPlanes rest,
            (pl'.type_ = DRM_PLANE_TYPE_PRIMARY → pl' ∈ prim.erase pl) ∧
            (pl'.type_ ≠ DRM_PLANE_TYPE_PRIMARY → pl' ∈ ov) := by
          intro pl' h'
          refine ⟨fun htp => ?_, fun htp =>
            (hmem pl' (List.mem_cons_of_mem _ h')).2 htp⟩
          exact (List.mem_erase_of_ne (hrest_ne pl' h')).mpr
            ((hmem pl' (List.mem_cons_of_mem _ h')).1 htp)
        have hih := ih (prim.erase pl) ov hrefs.2 (hprim.erase pl) hov hmem'
        rw [hred1, hred2]
        refine ⟨?_, ?_, ?_⟩
        · have h1 := hih.1
          simp [List.filter_cons, htb]
          omega
        · have h2 := hih.2.1
          simp only [List.filter_cons, htb, Bool.not_true, if_false]
          simpa using h2
        · intro pl' h'
          rcases List.mem_cons.mp h' with h' | h'
          · constructor
            · intro _ hcon
              have hsub : pl ∈ prim.erase pl :=
                (removeUsedPlanes_subsets rest (prim.erase pl) ov).1
                  (h' ▸ hcon)
              exact absurd rfl (hprim.mem_erase_iff.mp hsub).1
            · intro htp
              exact absurd ht (h' ▸ htp)
          · exact hih.2.2 pl' h'
      · have htb : (pl.type_ == DRM_PLANE_TYPE_PRIMARY) = false := by
          simp [ht]
        have hred1 : (removeUsedPlanes (cp :: rest) prim ov).2.1 =
            (removeUsedPlanes rest prim (ov.erase pl)).2.1 := by
          simp [removeUsedPlanes, hp, htb]
        have hred2 : (removeUsedPlanes (cp :: rest) prim ov).2.2 =
            (removeUsedPlanes rest prim (ov.erase pl)).2.2 := by
          simp [removeUsedPlanes, hp, htb]
        have hin : pl ∈ ov := hplmem.2 ht
        have hlen : (ov.erase pl).length = ov.length - 1 :=
          List.length_erase_of_mem hin
        have hpos : 1 ≤ ov.length :=
          List.length_pos.mpr (List.ne_nil_of_mem hin)
        have hmem' : ∀ pl' ∈ refPlanes rest,
            (pl'.type_ = DRM_PLANE_TYPE_PRIMARY → pl' ∈ prim) ∧
            (pl'.type_ ≠ DRM_PLANE_TYPE_PRIMARY → pl' ∈ ov.erase pl) := by
          intro pl' h'
          refine ⟨fun htp =>
            (hmem pl' (List.mem_cons_of_mem _ h')).1 htp, fun htp => ?_⟩
          exact (List.mem_erase_of_ne (hrest_ne pl' h')).mpr
            ((hmem pl' (List.mem_cons_of_mem _ h')).2 htp)
        have hih := ih prim (ov.erase pl) hrefs.2 hprim (hov.erase pl) hmem'
        rw [hred1, hred2]
        refine ⟨?_, ?_, ?_⟩
        · have h1 := hih.1
          simp only [List.filter_cons, htb, if_false]
          simpa using h1
        · have h2 := hih.2.1
          simp [List.filter_cons, htb]
          omega
        · intro pl' h'
          rcases List.mem_cons.mp h' with h' | h'
          · constructor
            · intro htp
              exact absurd htp (h' ▸ fun hq => ht hq)
            · intro _ hcon
              have hsub : pl ∈ ov.erase pl :=
                (removeUsedPlanes_subsets rest prim (ov.erase pl)).2
                  (h' ▸ hcon)
              exact absurd rfl (hov.mem_erase_iff.mp hsub).1
          · exact hih.2.2 pl' h'

/-- C1: on a successful Plan of a frame composition (planner status 0,
pools handed back unchanged by the planner, referenced planes pairwise
distinct and drawn from the pool matching their type, pools
duplicate-free), every returned CompositionPlane that references a real
plane has its source-layer list sorted ascending, that plane is removed
from the primary pool when its type is primary and from the overlay
pool otherwise, and the post-call pool sizes equal the pre-call sizes
minus exactly the number of distinct planes referenced. -/
theorem Plan_frame_success (planner : Planner) (c : DrmDisplayComposition)
    (prim ov : List DrmPlane) (cps : List DrmCompositionPlane)
    (hframe : c.type_ = DrmCompositionType.kFrame)
    (hplan : planner c.layers_.enum c.crtc_ prim ov = (0, cps, prim, ov))
    (hrefs : (refPlanes cps).Nodup)
    (hprim : prim.Nodup) (hov : ov.Nodup)
    (hmem : ∀ pl ∈ refPlanes cps,
        (pl.type_ = DRM_PLANE_TYPE_PRIMARY → pl ∈ prim) ∧
        (pl.type_ ≠ DRM_PLANE_TYPE_PRIMARY → pl ∈ ov)) :
    (Plan planner c prim ov).1 = 0 ∧
    (∀ cp ∈ (Plan planner c prim ov).2.1.composition_planes_,
        cp.plane.isSome = true → cp.source_layers.Sorted (· ≤ ·)) ∧
    (∀ pl ∈ refPlanes cps,
        (pl.type_ = DRM_PLANE_TYPE_PRIMARY →
           pl ∉ (Plan planner c prim ov).2.2.1) ∧
        (pl.type_ ≠ DRM_PLANE_TYPE_PRIMARY →
           pl ∉ (Plan planner c prim ov).2.2.2)) ∧
    (Plan planner c prim ov).2.2.1.length =
      prim.length - ((refPlanes cps).filter
        (fun pl => pl.type_ == DRM_PLANE_TYPE_PRIMARY)).length ∧
    (Plan planner c prim ov).2.2.2.length =
      ov.length - ((refPlanes cps).filter
        (fun pl => !(pl.type_ == DRM_PLANE_TYPE_PRIMARY))).length ∧
    (Plan planner c prim ov).2.2.1.length +
        (Plan planner c prim ov).2.2.2.length =
      prim.length + ov.length - (refPlanes cps).length := by
  have e1 : (Plan planner c prim ov).1 = 0 := by
    simp [Plan, hframe, hplan]
  have e2 : (Plan planner c prim ov).2.1.composition_planes_ =
      (removeUsedPlanes cps prim ov).1 := by
    simp [Plan, hframe, hplan]
  have e3 : (Plan planner c prim ov).2.2.1 =
      (removeUsedPlanes cps prim ov).2.1 := by
    simp [Plan, hframe, hplan]
  have e4 : (Plan planner c prim ov).2.2.2 =
      (removeUsedPlanes cps prim ov).2.2 := by
    simp [Plan, hframe, hplan]
  have hpools := removeUsedPlanes_pools cps prim ov hrefs hprim hov hmem
  have hsplit := (List.length_eq_length_filter_add
    (l := refPlanes cps) (fun pl => pl.type_ == DRM_PLANE_TYPE_PRIMARY))
  have h1 := hpools.1
  have h2 := hpools.2.1
  rw [e2, e3, e4]
  refine ⟨e1, ?_, hpools.2.2, ?_, ?_, ?_⟩
  · exact removeUsedPlanes_sorted cps prim ov
  · omega
  · omega
  · omega

/-- C1 witness: a planner claiming the sample primary and overlay
planes (with an unsorted source list) empties both one-element pools. -/
theorem Plan_frame_success_witness :
    (Plan wPlannerOk wCompFrame [wPlanePrim] [wPlaneOv]).1 = 0 ∧
    (Plan wPlannerOk wCompFrame [wPlanePrim] [wPlaneOv]).2.2.1.length =
      1 - ((refPlanes wCpsC1).filter
        (fun pl => pl.type_ == DRM_PLANE_TYPE_PRIMARY)).length := by
  have h := Plan_frame_success wPlannerOk wCompFrame [wPlanePrim] [wPlaneOv]
    wCpsC1 rfl rfl (by decide) (by decide) (by decide) (by decide)
  exact ⟨h.1, h.2.2.2.1⟩

/-- C8: on the synthetic vsync path with period frame_ns > 0, when a
last timestamp exists (last >= 0) and now >= last, GetPhasedVSync
equals frame_ns * floor((now - last)/frame_ns + 1) + last, is strictly
greater than now, and is congruent to last modulo frame_ns (phase
lock); when no last timestamp exists it equals now + frame_ns. -/
theorem GetPhasedVSync_phase (frame_ns current last_timestamp_ : Int)
    (hf : 0 < frame_ns) :
    (0 ≤ last_timestamp_ → last_timestamp_ ≤ current →
       (GetPhasedVSync last_timestamp_ frame_ns current =
          frame_ns * ((current - last_timestamp_).fdiv frame_ns + 1) +
            last_timestamp_ ∧
        current < GetPhasedVSync last_timestamp_ frame_ns current ∧
        (GetPhasedVSync last_timestamp_ frame_ns current -
            last_timestamp_) % frame_ns = 0)) ∧
    (last_timestamp_ < 0 →
       GetPhasedVSync last_timestamp_ frame_ns current =
         current + frame_ns) := by
  constructor
  · intro h0 hle
    have hnot : ¬ last_timestamp_ < 0 := not_lt.mpr h0
    have hm : 0 ≤ current - last_timestamp_ := by omega
    have htdiv : (current - last_timestamp_).tdiv frame_ns =
        (current - last_timestamp_) / frame_ns :=
      Int.tdiv_eq_ediv hm (le_of_lt hf)
    have hfdiv : (current - last_timestamp_).fdiv frame_ns =
        (current - last_timestamp_) / frame_ns :=
      Int.fdiv_eq_ediv _ (le_of_lt hf)
    rw [GetPhasedVSync, if_neg hnot, htdiv]
    refine ⟨by rw [hfdiv], ?_, ?_⟩
    · have hq := Int.ediv_add_emod (current - last_timestamp_) frame_ns
      have hr2 : (current - last_timestamp_) % frame_ns < frame_ns :=
        Int.emod_lt_of_pos _ hf
      have hr1 : 0 ≤ (current - last_timestamp_) % frame_ns :=
        Int.emod_nonneg _ (ne_of_gt hf)
      rw [mul_add, mul_one]
      linarith
    · have hsub : frame_ns * ((current - last_timestamp_) / frame_ns + 1) +
          last_timestamp_ - last_timestamp_ =
          frame_ns * ((current - last_timestamp_) / frame_ns + 1) := by
        ring
      rw [hsub]
      exact Int.mul_emod_right _ _
  · intro hneg
    rw [GetPhasedVSync, if_pos hneg]

/-- C8 witness: the worked example from the source comment
(last = 137, period = 50, now = 683 gives 687, in phase with 137). -/
theorem GetPhasedVSync_phase_witness :
    GetPhasedVSync 137 50 683 = 687 ∧
    (683 : Int) < GetPhasedVSync 137 50 683 ∧
    (GetPhasedVSync 137 50 683 - 137) % 50 = 0 := by
  have h := (GetPhasedVSync_phase 50 683 137 (by decide)).1
    (by decide) (by decide)
  exact ⟨by decide, h.2.1, h.2.2⟩

/-! ### Display-assignment lemmas -/

theorem assignDisplaysLoop_length (conns : List DrmConnector) :
    ∀ (ds : List Int) (n : Int) (f : Bool),
      (∀ conn ∈ conns, conn.display_ < 0) →
      (assignDisplaysLoop conns ds n f).2.1.length =
        ds.length + (conns.filter
          (fun conn => conn.external || conn.internal)).length := by
  induction conns with
  | nil => intro ds n f _; simp [assignDisplaysLoop]
  | cons conn rest ih =>
    intro ds n f hfresh
    have hd : conn.display_ < 0 := hfresh conn (List.mem_cons_self _ _)
    have hfresh' : ∀ c ∈ rest, c.display_ < 0 := fun c hc =>
      hfresh c (List.mem_cons_of_mem _ hc)
    by_cases hb : (conn.external || conn.internal) = true
    · cases f with
      | false =>
        simp only [assignDisplaysLoop, hb, Bool.not_false, if_true]
        rw [ih (ds ++ [n]) (n + 1) true hfresh']
        simp [List.filter_cons, hb]
        omega
      | true =>
        simp only [assignDisplaysLoop, hb, Bool.not_true, if_true,
          Bool.false_eq_true, if_false, hd]
        rw [ih (ds ++ [n]) (n + 1) true hfresh']
        simp [List.filter_cons, hb]
        omega
    · have hb' : (conn.external || conn.internal) = false := by
        simpa using hb
      simp only [assignDisplaysLoop, hb', Bool.false_eq_true, if_false]
      rw [ih ds n f hfresh']
      simp [List.filter_cons, hb']

theorem assignDisplaysLoop_capable (conns : List DrmConnector) :
    ∀ (ds : List Int) (n : Int) (f : Bool), 0 ≤ n →
      ∀ conn ∈ (assignDisplaysLoop conns ds n f).1,
        (conn.external || conn.internal) = true → 0 ≤ conn.display_ := by
  induction conns with
  | nil => intro ds n f _; simp [assignDisplaysLoop]
  | cons conn rest ih =>
    intro ds n f hn c hmem hcap
    by_cases hb : (conn.external || conn.internal) = true
    · cases f with
      | false =>
        rw [assignDisplaysLoop] at hmem
        simp only [hb, Bool.not_false, if_true] at hmem
        rcases List.mem_cons.mp hmem with h | h
        · subst h; simpa using hn
        · exact ih (ds ++ [n]) (n + 1) true (by omega) c h hcap
      | true =>
        rw [assignDisplaysLoop] at hmem
        simp only [hb, Bool.not_true, Bool.false_eq_true, if_true,
          if_false] at hmem
        by_cases hd : conn.display_ < 0
        · simp only [hd, if_true] at hmem
          rcases List.mem_cons.mp hmem with h | h
          · subst h; simpa using hn
          · exact ih (ds ++ [n]) (n + 1) true (by omega) c h hcap
        · simp only [hd, if_false] at hmem
          rcases List.mem_cons.mp hmem with h | h
          · subst h; omega
          · exact ih ds n true hn c h hcap
    · have hb' : (conn.external || conn.internal) = false := by
        simpa using hb
      rw [assignDisplaysLoop] at hmem
      simp only [hb', Bool.false_eq_true, if_false] at hmem
      rcases List.mem_cons.mp hmem with h | h
      · subst h; rw [hcap] at hb'; cases hb'
      · exact ih ds n f hn c h hcap

/-- C4 counterexample: preference list ["HDMI-A-1"] with no wildcard,
HDMI-A-1 disconnected, eDP-1 connected and internal.  The preference
pass indeed yields no candidate, yet Init's fallback loop assigns
display ids 0 and 1 to both connectors and reports two displays, not
zero. -/
theorem device_init_zero_displays_counterexample :
    make_primary_display_candidates [wConnHdmiDisc, wConnEdpConn]
      ["HDMI-A-1"] = [] ∧
    (initAssignDisplays [wConnHdmiDisc, wConnEdpConn] ["HDMI-A-1"]
      0).2.length = 2 ∧
    (initAssignDisplays [wConnHdmiDisc, wConnEdpConn] ["HDMI-A-1"] 0).1 =
      [{ wConnHdmiDisc with display_ := 0 },
       { wConnEdpConn with display_ := 1 }] := by
  decide

/-- C4 amended: when the preference list yields no candidate (no
wildcard, no connected match), the preference-based primary selection
fails, but the fallback loop of Init still assigns a display id to
every display-capable (external or internal) connector — starting the
display count at zero with all connectors unassigned, the number of
display ids handed out equals the number of display-capable connectors,
not zero. -/
theorem primary_selection_empty_fallback (connectors : List DrmConnector)
    (display_order : List String)
    (hcand : make_primary_display_candidates connectors display_order = [])
    (hfresh : ∀ conn ∈ connectors, conn.display_ < 0) :
    (initAssignDisplays connectors display_order 0).2.length =
      (connectors.filter
        (fun conn => conn.external || conn.internal)).length := by
  simp only [initAssignDisplays, hcand, List.head?_nil]
  rw [assignDisplaysLoop_length connectors [] 0 _ hfresh]
  simp

/-- C4 amended witness: the scenario connectors give two display ids. -/
theorem primary_selection_empty_fallback_witness :
    (initAssignDisplays [wConnHdmiDisc, wConnEdpConn] ["HDMI-A-1"]
      0).2.length =
      (([wConnHdmiDisc, wConnEdpConn]).filter
        (fun conn => conn.external || conn.internal)).length :=
  primary_selection_empty_fallback [wConnHdmiDisc, wConnEdpConn]
    ["HDMI-A-1"] (by decide) (by decide)

/-- C5 counterexample: after the assignment pass of Init on the C4
scenario, the disconnected HDMI-A-1 connector holds display id 0 — a
connector holding an assigned display id whose connection state is not
connected. -/
theorem display_id_disconnected_counterexample :
    (initAssignDisplays [wConnHdmiDisc, wConnEdpConn] ["HDMI-A-1"] 0).1 =
      [{ wConnHdmiDisc with display_ := 0 },
       { wConnEdpConn with display_ := 1 }] ∧
    wConnHdmiDisc.state_ ≠ DRM_MODE_CONNECTED ∧
    (0 : Int) ≤ ({ wConnHdmiDisc with display_ := 0 }).display_ := by
  decide

/-- C5 amended: the display-id assignment pass of Init gives a display
id to every external-or-internal connector, regardless of connection
state: after the pass each display-capable connector's display id is
non-negative (assigned). -/
theorem initAssignDisplays_capable (connectors : List DrmConnector)
    (display_order : List String) (num_displays : Int)
    (h : 0 ≤ num_displays) :
    ∀ conn ∈ (initAssignDisplays connectors display_order
        num_displays).1,
      (conn.external || conn.internal) = true → 0 ≤ conn.display_ := by
  intro conn hmem hcap
  rw [initAssignDisplays] at hmem
  cases hc : (make_primary_display_candidates connectors
      display_order).head? with
  | none =>
    rw [hc] at hmem
    exact assignDisplaysLoop_capable connectors [] num_displays _ h conn
      hmem hcap
  | some c0 =>
    rw [hc] at hmem
    by_cases hf : (num_displays != 0) = true
    · simp only [hf, Bool.not_true, Bool.false_eq_true, if_false] at hmem
      exact assignDisplaysLoop_capable connectors [] num_displays _ h
        conn hmem hcap
    · have hf' : (num_displays != 0) = false := by simpa using hf
      simp only [hf', Bool.not_false, if_true] at hmem
      exact assignDisplaysLoop_capable _ [num_displays]
        (num_displays + 1) true (by omega) conn hmem hcap

/-- C5 amended witness: on the scenario connectors, the (disconnected,
external) HDMI-A-1 connector emerging from the pass holds an assigned
display id. -/
theorem initAssignDisplays_capable_witness :
    (0 : Int) ≤ ({ wConnHdmiDisc with display_ := 0 }).display_ :=
  initAssignDisplays_capable [wConnHdmiDisc, wConnEdpConn] ["HDMI-A-1"]
    0 (by decide) { wConnHdmiDisc with display_ := 0 } (by decide)
    (by decide)

/-! ### Encoder/CRTC binding lemmas -/

theorem findBindableCrtc_props (crtcs : List DrmCrtc) (enc : DrmEncoder)
    (display : Int) :
    ∀ (cids : List Nat) (crtc : DrmCrtc),
      findBindableCrtc crtcs enc display cids = some crtc →
      crtc ∈ crtcs ∧ enc.crtc_ ≠ some crtc.id_ ∧
        crtc.can_bind display = true := by
  intro cids
  induction cids with
  | nil => intro crtc h; simp [findBindableCrtc] at h
  | cons cid rest ih =>
    intro crtc h
    rw [findBindableCrtc] at h
    by_cases he : (enc.crtc_ == some cid) = true
    · rw [if_pos he] at h
      exact ih crtc h
    · rw [if_neg he] at h
      cases hf : findCrtcById crtcs cid with
      | none => rw [hf] at h; dsimp only at h; exact ih crtc h
      | some c =>
        rw [hf] at h
        dsimp only at h
        by_cases hcb : c.can_bind display = true
        · rw [if_pos hcb] at h
          injection h with h
          rw [← h]
          refine ⟨List.mem_of_find?_eq_some hf, ?_, hcb⟩
          have hid : c.id_ = cid := by
            have := List.find?_some hf
            simpa using this
          rw [hid]
          simpa using he
        · rw [if_neg hcb] at h
          exact ih crtc h

theorem tryCurrentCrtc_props (crtcs : List DrmCrtc) (enc : DrmEncoder)
    (display : Int) :
    ∀ crtc : DrmCrtc, tryCurrentCrtc crtcs enc display = some crtc →
      crtc ∈ crtcs ∧ enc.crtc_ = some crtc.id_ ∧
        crtc.can_bind display = true := by
  intro crtc h
  rw [tryCurrentCrtc] at h
  cases hc : enc.crtc_ with
  | none => rw [hc] at h; cases h
  | some cid =>
    rw [hc] at h
    dsimp only at h
    cases hf : findCrtcById crtcs cid with
    | none => rw [hf] at h; dsimp only at h; cases h
    | some c =>
      rw [hf] at h
      dsimp only at h
      by_cases hcb : c.can_bind display = true
      · rw [if_pos hcb] at h
        injection h with h
        rw [← h]
        refine ⟨List.mem_of_find?_eq_some hf, ?_, hcb⟩
        have hid : c.id_ = cid := by
          have := List.find?_some hf
          simpa using this
        simp [hc, hid]
      · rw [if_neg hcb] at h
        cases h

/-- C6: TryEncoderForDisplay binds the encoder's current CRTC when it
exists and can bind the display; otherwise it binds the first CRTC of
the encoder's possible list (skipping the already-tried current one)
that is unbound or already bound to this same display; and when no
candidate can bind it returns -EAGAIN (retry-able) without modifying
any CRTC or encoder binding. -/
theorem TryEncoderForDisplay_spec (display : Int) (enc : DrmEncoder)
    (crtcs : List DrmCrtc) :
    (∀ crtc : DrmCrtc, tryCurrentCrtc crtcs enc display = some crtc →
       (crtc ∈ crtcs ∧ enc.crtc_ = some crtc.id_ ∧
        crtc.can_bind display = true ∧
        TryEncoderForDisplay display enc crtcs =
          (0, enc.set_crtc { crtc with display_ := display },
           setCrtcDisplay crtcs crtc.id_ display))) ∧
    (∀ crtc : DrmCrtc, tryCurrentCrtc crtcs enc display = none →
       findBindableCrtc crtcs enc display enc.possible_crtcs_ =
         some crtc →
       (crtc ∈ crtcs ∧ enc.crtc_ ≠ some crtc.id_ ∧
        crtc.can_bind display = true ∧
        TryEncoderForDisplay display enc crtcs =
          (0, enc.set_crtc { crtc with display_ := display },
           setCrtcDisplay crtcs crtc.id_ display))) ∧
    (tryCurrentCrtc crtcs enc display = none →
     findBindableCrtc crtcs enc display enc.possible_crtcs_ = none →
     TryEncoderForDisplay display enc crtcs = (-11, enc, crtcs)) := by
  refine ⟨?_, ?_, ?_⟩
  · intro crtc h
    obtain ⟨hm, hcur, hcb⟩ := tryCurrentCrtc_props crtcs enc display crtc h
    exact ⟨hm, hcur, hcb, by rw [TryEncoderForDisplay, h]⟩
  · intro crtc h hb
    obtain ⟨hm, hne, hcb⟩ := findBindableCrtc_props crtcs enc display
      enc.possible_crtcs_ crtc hb
    exact ⟨hm, hne, hcb, by rw [TryEncoderForDisplay, h, hb]⟩
  · intro h hb
    rw [TryEncoderForDisplay, h, hb]

/-- C6 witness: an encoder with no current CRTC binds the first (and
only) possible CRTC, which is unbound. -/
theorem TryEncoderForDisplay_spec_witness :
    TryEncoderForDisplay 0 wEnc5 [wCrtc100] =
      (0, wEnc5.set_crtc { wCrtc100 with display_ := 0 },
       setCrtcDisplay [wCrtc100] wCrtc100.id_ 0) :=
  ((TryEncoderForDisplay_spec 0 wEnc5 [wCrtc100]).2.1 wCrtc100
    (by decide) (by decide)).2.2.2

/-! ### Writeback attach lemmas -/

theorem attachWritebackLoop_shape (encoders : List DrmEncoder)
    (display_crtc : DrmCrtc) :
    ∀ (wbs : List DrmConnector)
      (r : List DrmConnector × List DrmEncoder),
      attachWritebackLoop encoders display_crtc wbs = some r →
      ∃ pre conn post enc,
        wbs = pre ++ conn :: post ∧ conn.display_ < 0 ∧
        findWritebackEncoder encoders display_crtc
          conn.possible_encoders_ = some enc ∧
        r.1 = pre ++
          { conn with
              encoder_ := some enc.id_,
              display_ := display_crtc.display_ } :: post ∧
        r.2 = setEncoderBound encoders enc.id_ display_crtc := by
  intro wbs
  induction wbs with
  | nil => intro r h; simp [attachWritebackLoop] at h
  | cons conn rest ih =>
    intro r h
    rw [attachWritebackLoop] at h
    by_cases hd : conn.display_ ≥ 0
    · rw [if_pos hd] at h
      cases hrec : attachWritebackLoop encoders display_crtc rest with
      | none => rw [hrec] at h; cases h
      | some r0 =>
        rw [hrec] at h
        injection h with h
        subst h
        obtain ⟨pre, c, post, e, h1, h2, h3, h4, h5⟩ := ih r0 hrec
        refine ⟨conn :: pre, c, post, e, by rw [h1]; rfl, h2, h3, ?_, h5⟩
        show conn :: r0.1 = (conn :: pre) ++ _ :: post
        rw [h4]
        rfl
    · rw [if_neg hd] at h
      cases hfe : findWritebackEncoder encoders display_crtc
          conn.possible_encoders_ with
      | some enc =>
        rw [hfe] at h
        injection h with h
        subst h
        exact ⟨[], conn, rest, enc, rfl, by omega, hfe, rfl, rfl⟩
      | none =>
        rw [hfe] at h
        cases hrec : attachWritebackLoop encoders display_crtc rest with
        | none => rw [hrec] at h; cases h
        | some r0 =>
          rw [hrec] at h
          injection h with h
          subst h
          obtain ⟨pre, c, post, e, h1, h2, h3, h4, h5⟩ := ih r0 hrec
          refine ⟨conn :: pre, c, post, e, by rw [h1]; rfl, h2, h3, ?_, h5⟩
          show conn :: r0.1 = (conn :: pre) ++ _ :: post
          rw [h4]
          rfl

/-- C7: a display has at most one writeback connector.  AttachWriteback
returns -EINVAL and binds nothing when a writeback connector is already
assigned to the CRTC's display; on success it assigns the display to
exactly one previously-unassigned writeback connector (all others keep
their assignment); and the at-most-one-writeback-per-display invariant
is preserved by every call. -/
theorem AttachWriteback_exclusive (display_crtc : DrmCrtc)
    (writeback_connectors : List DrmConnector)
    (encoders : List DrmEncoder) :
    ((GetWritebackConnectorForDisplay writeback_connectors
        display_crtc.display_).isSome = true →
       AttachWriteback display_crtc writeback_connectors encoders =
         (-22, writeback_connectors, encoders)) ∧
    ((AttachWriteback display_crtc writeback_connectors encoders).1 =
        0 →
       ∃ (pre : List DrmConnector) (conn : DrmConnector)
         (post : List DrmConnector) (enc : DrmEncoder),
         writeback_connectors = pre ++ conn :: post ∧
         conn.display_ < 0 ∧
         (AttachWriteback display_crtc writeback_connectors
             encoders).2.1 =
           pre ++
             { conn with
                 encoder_ := some enc.id_,
                 display_ := display_crtc.display_ } :: post) ∧
    (AtMostOneWriteback writeback_connectors →
       AtMostOneWriteback
         (AttachWriteback display_crtc writeback_connectors
           encoders).2.1) := by
  refine ⟨?_, ?_, ?_⟩
  · intro h
    rw [AttachWriteback, if_pos h]
  · intro h0
    by_cases hg : (GetWritebackConnectorForDisplay writeback_connectors
        display_crtc.display_).isSome = true
    · rw [AttachWriteback, if_pos hg] at h0
      cases h0
    · rw [AttachWriteback, if_neg hg] at h0 ⊢
      cases hrec : attachWritebackLoop encoders display_crtc
          writeback_connectors with
      | none =>
        rw [hrec] at h0
        dsimp only at h0
        omega
      | some r =>
        dsimp only
        obtain ⟨pre, conn, post, enc, h1, h2, h3, h4, h5⟩ :=
          attachWritebackLoop_shape encoders display_crtc
            writeback_connectors r hrec
        exact ⟨pre, conn, post, enc, h1, h2, h4⟩
  · intro hinv
    by_cases hg : (GetWritebackConnectorForDisplay writeback_connectors
        display_crtc.display_).isSome = true
    · rw [AttachWriteback, if_pos hg]
      exact hinv
    · rw [AttachWriteback, if_neg hg]
      cases hrec : attachWritebackLoop encoders display_crtc
          writeback_connectors with
      | none => exact hinv
      | some r =>
        obtain ⟨pre, conn, post, enc, h1, h2, h3, h4, h5⟩ :=
          attachWritebackLoop_shape encoders display_crtc
            writeback_connectors r hrec
        have hnone : GetWritebackConnectorForDisplay
            writeback_connectors display_crtc.display_ = none :=
          Option.not_isSome_iff_eq_none.mp hg
        have hall : ∀ x ∈ writeback_connectors,
            ¬((x.display_ == display_crtc.display_) = true) :=
          List.find?_eq_none.mp hnone
        intro d hdpos
        show (r.1.filter (fun c => c.display_ == d)).length ≤ 1
        have hbefore := hinv d hdpos
        rw [h1, List.filter_append, List.filter_cons,
          List.length_append] at hbefore
        have hcneq : (conn.display_ == d) = false := by
          rw [beq_eq_false_iff_ne]
          omega
        rw [hcneq] at hbefore
        simp only [Bool.false_eq_true, if_false] at hbefore
        rw [h4, List.filter_append, List.filter_cons,
          List.length_append]
        by_cases hdd : display_crtc.display_ = d
        · have hpre : pre.filter (fun c => c.display_ == d) = [] := by
            refine List.filter_eq_nil_iff.mpr ?_
            intro x hx
            have := hall x (by rw [h1]; exact
              List.mem_append_left _ hx)
            rw [hdd] at this
            exact this
          have hpost : post.filter (fun c => c.display_ == d) = [] := by
            refine List.filter_eq_nil_iff.mpr ?_
            intro x hx
            have := hall x (by
              rw [h1]
              exact List.mem_append_right _
                (List.mem_cons_of_mem _ hx))
            rw [hdd] at this
            exact this
          have hmatch :
              (({ conn with
                    encoder_ := some enc.id_,
                    display_ := display_crtc.display_ } :
                DrmConnector).display_ == d) = true := by
            simp [hdd]
          rw [hmatch, hpre, hpost]
          simp
        · have hmatch :
              (({ conn with
                    encoder_ := some enc.id_,
                    display_ := display_crtc.display_ } :
                DrmConnector).display_ == d) = false := by
            rw [beq_eq_false_iff_ne]
            simpa using hdd
          rw [hmatch]
          simp only [Bool.false_eq_true, if_false]
          omega

/-- C7 witness: attaching to an empty-display setup succeeds and keeps
the at-most-one invariant on the single writeback connector. -/
theorem AttachWriteback_exclusive_witness :
    AtMostOneWriteback
      (AttachWriteback wCrtc100Bound [wWbConn] [wEnc5]).2.1 :=
  (AttachWriteback_exclusive wCrtc100Bound [wWbConn] [wEnc5]).2.2
    (fun _ _ => List.length_filter_le _ _)

end DrmHwc
